import Mathlib

/-!
Verification of the discussion-aggregation and prioritized-formatting engine
of the google-jules-workflow repository.

The definitions below are a shallow embedding of the TypeScript sources
src/scripts/extract-pr-discussion.ts and src/scripts/config-loader.ts.
JavaScript strings are modelled as Lean String (code points; the sources only
rely on ASCII behaviour), JavaScript truthiness of optional values is made
explicit through small js* helper functions, fallible external calls (gh
subprocess invocations, Linear SDK calls) are modelled as Except/Option
valued inputs, and the module-level configuration singleton is passed as an
explicit argument to every function that reads it.
-/

/- ### JavaScript string primitives -/

/-- Model of JavaScript String.prototype.toLowerCase.  The sources only
compare against ASCII keywords, so the ASCII-only Char.toLower is faithful. -/
def toLowerJS (s : String) : String := String.mk (s.data.map Char.toLower)

/-- Check that the pattern list is an initial segment of the other list. -/
def listStartsWith : List Char → List Char → Bool
  | [], _ => true
  | _ :: _, [] => false
  | a :: as, b :: bs => a == b && listStartsWith as bs

/-- Check that the first list occurs contiguously somewhere in the second. -/
def listOccurs (pat : List Char) : List Char → Bool
  | [] => listStartsWith pat []
  | c :: cs => listStartsWith pat (c :: cs) || listOccurs pat cs

/-- Model of JavaScript hay.includes(needle). -/
def strIncludes (hay needle : String) : Bool := listOccurs needle.data hay.data

/-- Model of JavaScript s.substring(0, n) (code-point based take). -/
def substrTo (s : String) (n : Nat) : String := String.mk (s.data.take n)

/-- Model of the JavaScript expression opt || dflt for an optional string:
undefined, null and the empty string are falsy. -/
def jsOrStr (o : Option String) (dflt : String) : String :=
  match o with
  | none => dflt
  | some s => if s = "" then dflt else s

/-- JavaScript truthiness of an optional string (undefined/null/"" are falsy). -/
def jsTruthyStr (o : Option String) : Bool :=
  match o with
  | none => false
  | some s => s ≠ ""

/-- JavaScript truthiness of an optional number (undefined/null/0 are falsy). -/
def jsTruthyNat (o : Option Nat) : Bool :=
  match o with
  | none => false
  | some n => n ≠ 0

/-- Whitespace characters stripped by JavaScript String.prototype.trim
(ASCII part; the rendered fragments only contain ASCII whitespace). -/
def isJsWhitespace (c : Char) : Bool :=
  c == ' ' || c == '\t' || c == '\n' || c == '\r' || c == '\x0b' || c == '\x0c'

/-- Truthiness of frag.trim(): true iff the string contains a character that
trim does not strip. -/
def jsTrimTruthy (frag : String) : Bool :=
  frag.data.any (fun c => !isJsWhitespace c)

/-- Model of JavaScript String(opt) interpolation of an optional string field:
an undefined field prints as "undefined". -/
def showOptStr (o : Option String) : String := o.getD "undefined"

/-- Model of interpolating an optional number; parseInt failures (NaN) are
modelled as none and print as "NaN". -/
def showOptNat (o : Option Nat) : String :=
  match o with
  | some n => toString n
  | none => "NaN"

/- ### Priority tiers (src/scripts/extract-pr-discussion.ts, config-loader.ts) -/

/-- The three priority tiers HIGH, MEDIUM, LOW. -/
inductive Priority where
  | HIGH
  | MEDIUM
  | LOW
deriving DecidableEq

/-- The string printed for a tier by template interpolation. -/
def Priority.label : Priority → String
  | .HIGH => "HIGH"
  | .MEDIUM => "MEDIUM"
  | .LOW => "LOW"

/-- The rank used by the priorityOrder comparator objects
(HIGH = 0, MEDIUM = 1, LOW = 2). -/
def priorityOrder : Priority → Nat
  | .HIGH => 0
  | .MEDIUM => 1
  | .LOW => 2

/- ### Configuration data model (src/scripts/config-loader.ts, lines 4-142).
Only the portion of JulesWorkflowConfig consumed by the embedded core is
modelled; the aiSummary, julesMode, clipboard, workflow.autoSave and
prManager groups only drive CLI and network behaviour outside the core. -/

structure PriorityKeywords where
  HIGH : List String
  MEDIUM : List String
  LOW : List String
deriving DecidableEq

structure PriorityEmojis where
  HIGH : String
  MEDIUM : String
  LOW : String
deriving DecidableEq

def PriorityEmojis.get (e : PriorityEmojis) : Priority → String
  | .HIGH => e.HIGH
  | .MEDIUM => e.MEDIUM
  | .LOW => e.LOW

structure PriorityConfig where
  customKeywords : PriorityKeywords
  priorityEmojis : PriorityEmojis
  defaultPriority : Priority
deriving DecidableEq

structure FilteringConfig where
  botUsers : List String
  enableDeduplication : Bool
  includeBotFeedback : Bool
  maxBotItemsPerPriority : Nat
  includeEmptySections : Bool
deriving DecidableEq

structure OutputConfig where
  includeBranchNameHeader : Bool
  includeLinearIdHeader : Bool
  includeJulesRules : Bool
  customJulesRules : List String
  additionalJulesRules : List String
  includeUnifiedSummaryHeader : Bool
  includeMetadata : Bool
  includeLinearDiscussion : Bool
  sectionOrder : List String
deriving DecidableEq

structure CodeContextConfig where
  maxCodeLines : Nat
  enableTruncation : Bool
  showLineNumbers : Bool
  showFilePaths : Bool
  groupCommentsByFile : Bool
deriving DecidableEq

structure CustomHeaders where
  humanReviews : String
  humanCodeComments : String
  humanGeneralComments : String
  botFeedback : String
  actionItems : String
  julesRules : String
deriving DecidableEq

structure DisplayConfig where
  customHeaders : CustomHeaders
deriving DecidableEq

structure LinearIntegrationConfig where
  includeAttachments : Bool
  includeComments : Bool
deriving DecidableEq

structure GithubIntegrationConfig where
  includePRDescription : Bool
  includeIssueComments : Bool
  includeReviewComments : Bool
  includeReviews : Bool
deriving DecidableEq

structure IntegrationsConfig where
  linear : LinearIntegrationConfig
  github : GithubIntegrationConfig
deriving DecidableEq

structure WorkflowConfig where
  enableInteractivePrompts : Bool
deriving DecidableEq

structure JulesWorkflowConfig where
  output : OutputConfig
  filtering : FilteringConfig
  priority : PriorityConfig
  codeContext : CodeContextConfig
  display : DisplayConfig
  integrations : IntegrationsConfig
  workflow : WorkflowConfig
deriving DecidableEq

/-- DEFAULT_CONFIG (src/scripts/config-loader.ts, lines 145-304), restricted
to the modelled fields. -/
def DEFAULT_CONFIG : JulesWorkflowConfig where
  output :=
    { includeBranchNameHeader := true
      includeLinearIdHeader := true
      includeJulesRules := true
      customJulesRules :=
        ["You don\x27t have access to project environmental variables. If you must make an edit / migration of the database please instead edit prisma schema file and leave it as is, assuming a human will migrate it later.",
         "When publishing the github branch the name MUST BE THE FULL EXACT the FROM branch mentioned at the top of the output (but not the shortened version at the top of the output)."]
      additionalJulesRules := []
      includeUnifiedSummaryHeader := true
      includeMetadata := true
      includeLinearDiscussion := true
      sectionOrder :=
        ["header", "summaryHeader", "prOverview", "linearOverview",
         "humanReviews", "humanCodeComments", "humanGeneralComments",
         "botFeedback", "actionItems", "julesRules"] }
  filtering :=
    { botUsers :=
        ["copilot-pull-request-reviewer[bot]", "github-actions[bot]",
         "dependabot[bot]", "vercel[bot]", "linear[bot]"]
      enableDeduplication := true
      includeBotFeedback := true
      maxBotItemsPerPriority := 3
      includeEmptySections := false }
  priority :=
    { customKeywords := { HIGH := [], MEDIUM := [], LOW := [] }
      priorityEmojis := { HIGH := "🚨", MEDIUM := "⚠️", LOW := "ℹ️" }
      defaultPriority := .MEDIUM }
  codeContext :=
    { maxCodeLines := 10
      enableTruncation := true
      showLineNumbers := true
      showFilePaths := true
      groupCommentsByFile := true }
  display :=
    { customHeaders :=
        { humanReviews := "**HUMAN REVIEWS** 🔥"
          humanCodeComments := "**HUMAN INLINE CODE COMMENTS** 💻"
          humanGeneralComments := "**HUMAN DISCUSSION COMMENTS** 💬"
          botFeedback := "**BOT FEEDBACK SUMMARY** 🤖"
          actionItems := "**PRIORITIZED ACTION ITEMS** 📋"
          julesRules := "**Jules Rules**" } }
  integrations :=
    { linear := { includeAttachments := true, includeComments := true }
      github :=
        { includePRDescription := true
          includeIssueComments := true
          includeReviewComments := true
          includeReviews := true } }
  workflow := { enableInteractivePrompts := true }

/- ### Configuration loading (src/scripts/config-loader.ts, lines 307-443) -/

/-- The array branch of deepMerge (config-loader.ts, lines 317-323):
arrays are merged by concatenating and keeping only the first occurrence of
each value, as the JavaScript Set constructor does. -/
def deepMergeArray (target source : List String) : List String :=
  dedupeJsSet [] (target ++ source)
where
  /-- Insertion into a JavaScript Set keeps the first occurrence of each
  value in insertion order. -/
  dedupeJsSet (seen : List String) : List String → List String
    | [] => []
    | x :: xs =>
      if x ∈ seen then dedupeJsSet seen xs
      else x :: dedupeJsSet (x :: seen) xs

/-- defaultPriorityKeywords (config-loader.ts, lines 380-400). -/
def defaultPriorityKeywords : PriorityKeywords where
  HIGH := ["security", "breaking", "critical", "urgent", "error", "fail",
           "bug", "broken"]
  MEDIUM := ["performance", "optimization", "refactor", "improvement",
             "consider", "should"]
  LOW := ["nitpick", "style", "formatting", "typo", "minor", "suggestion"]

/-- The special handling of priority keywords in loadConfig
(config-loader.ts, lines 377-417).  The user file is first deep-merged over
DEFAULT_CONFIG, whose customKeywords lists are empty, so the merged lists are
the user additions deduplicated by the Set in deepMerge; the loader then
prepends the built-in defaults by plain array spread (no deduplication). -/
def loadedCustomKeywords (userKeywords : PriorityKeywords) : PriorityKeywords where
  HIGH := defaultPriorityKeywords.HIGH ++ deepMergeArray [] userKeywords.HIGH
  MEDIUM := defaultPriorityKeywords.MEDIUM ++ deepMergeArray [] userKeywords.MEDIUM
  LOW := defaultPriorityKeywords.LOW ++ deepMergeArray [] userKeywords.LOW

/-- loadConfig (config-loader.ts, lines 335-418) restricted to the modelled
fields: the result is the deep merge of the user file over DEFAULT_CONFIG
with the priority keywords replaced by the special union above.  Only the
keyword handling is needed by the claims, so scalar user overrides are
abstracted as an arbitrary already-merged configuration. -/
def loadConfigKeywords (merged : JulesWorkflowConfig) (userKeywords : PriorityKeywords) :
    JulesWorkflowConfig :=
  { merged with
    priority := { merged.priority with
      customKeywords := loadedCustomKeywords userKeywords } }

/-- getAllPriorityKeywords (config-loader.ts, lines 437-443): returns the
three customKeywords lists of the loaded configuration, in insertion order
HIGH, MEDIUM, LOW. -/
def getAllPriorityKeywords (config : JulesWorkflowConfig) : PriorityKeywords :=
  { HIGH := config.priority.customKeywords.HIGH
    MEDIUM := config.priority.customKeywords.MEDIUM
    LOW := config.priority.customKeywords.LOW }

/- ### The priority classifier (extract-pr-discussion.ts, lines 145-156) -/

/-- detectPriority: lowercase the body, then scan the keyword tiers in the
object insertion order HIGH, MEDIUM, LOW (the order of Object.entries) and
return the first tier one of whose keywords is contained in the lowercased
body; if no tier matches, return the configured default priority. -/
def detectPriority (config : JulesWorkflowConfig) (body : String) : Priority :=
  let lowerBody := toLowerJS body
  let priorityKeywords := getAllPriorityKeywords config
  match [(Priority.HIGH, priorityKeywords.HIGH),
         (Priority.MEDIUM, priorityKeywords.MEDIUM),
         (Priority.LOW, priorityKeywords.LOW)].find?
          (fun e => e.2.any (fun keyword => strIncludes lowerBody keyword)) with
  | some e => e.1
  | none => config.priority.defaultPriority

/-- A tier matches a body when one of its keywords is contained verbatim in
the lowercased body (the matching predicate of detectPriority). -/
def tierMatches (keywords : List String) (body : String) : Bool :=
  keywords.any (fun keyword => strIncludes (toLowerJS body) keyword)

theorem sanity_detectPriority_default :
    detectPriority DEFAULT_CONFIG "hello world" = .MEDIUM := by decide

theorem sanity_detectPriority_loaded_high :
    detectPriority (loadConfigKeywords DEFAULT_CONFIG ⟨[], [], []⟩)
      "Security flaw, just a typo though" = .HIGH := by decide

/- ### Feedback items (extract-pr-discussion.ts, lines 100-110) -/

/-- The Comment interface: one piece of feedback from any of the three
GitHub origins.  Optional fields are unset on raw fetched records and the
isBot / priority tags are filled in by the enhancement step of formatOutput. -/
structure Comment where
  author : String
  body : String
  path : Option String := none
  line : Option Nat := none
  diff_hunk : Option String := none
  created_at : Option String := none
  state : Option String := none
  isBot : Option Bool := none
  priority : Option Priority := none
deriving DecidableEq

/-- The non-null assertion comment.priority! used by formatOutput; every use
in the source happens after the enhancement step has set the tag. -/
def Comment.priorityBang (c : Comment) : Priority := c.priority.getD .MEDIUM

/-- JavaScript truthiness of the isBot tag (undefined is falsy). -/
def Comment.isBotTruthy (c : Comment) : Bool := c.isBot.getD false

/- ### The deduplicator (extract-pr-discussion.ts, lines 170-180) -/

/-- The key of the seen-set in deduplicateComments:
author, a colon, and the first 100 characters of the body. -/
def commentKey (c : Comment) : String := c.author ++ ":" ++ substrTo c.body 100

/-- The filter pass of deduplicateComments: drop a comment when its key is
already in the seen set, otherwise keep it and add its key. -/
def dedupFilter (seen : List String) : List Comment → List Comment
  | [] => []
  | c :: cs =>
    if commentKey c ∈ seen then dedupFilter seen cs
    else c :: dedupFilter (commentKey c :: seen) cs

/-- deduplicateComments: identity when deduplication is disabled, otherwise
the seen-set filter over the whole list. -/
def deduplicateComments (config : JulesWorkflowConfig) (comments : List Comment) :
    List Comment :=
  if config.filtering.enableDeduplication then dedupFilter [] comments
  else comments

/-- Modelled from the claim wording, for refinement comparison only: keep
exactly those items whose (author, first-100-characters-of-body) PAIR has
not occurred earlier in the list, tracking the pairs of all earlier items
(kept or dropped).  This is the key the claim describes; the implementation
instead serializes the pair into the colon-joined string commentKey. -/
def specFirstOccurrencesPair (earlierPairs : List (String × String)) :
    List Comment → List Comment
  | [] => []
  | c :: cs =>
    if (c.author, substrTo c.body 100) ∈ earlierPairs then
      specFirstOccurrencesPair ((c.author, substrTo c.body 100) :: earlierPairs) cs
    else
      c :: specFirstOccurrencesPair ((c.author, substrTo c.body 100) :: earlierPairs) cs

/-- Modelled from the amended claim wording, for refinement comparison only:
keep exactly those items whose colon-serialized key (author, a colon, the
first 100 characters of the body, as the implementation builds it) has not
occurred earlier in the list, tracking the keys of all earlier items (kept
or dropped).  Unlike the pair key above, this serialization conflates
distinct pairs whose joined strings coincide. -/
def specFirstOccurrences (earlierKeys : List String) : List Comment → List Comment
  | [] => []
  | c :: cs =>
    if commentKey c ∈ earlierKeys then specFirstOccurrences (commentKey c :: earlierKeys) cs
    else c :: specFirstOccurrences (commentKey c :: earlierKeys) cs

/- ### Code-context truncation (extract-pr-discussion.ts, lines 158-168) -/

/-- truncateCodeContext: split the diff hunk on newlines and keep at most
maxCodeLines lines, appending a truncation marker when lines were dropped. -/
def truncateCodeContext (config : JulesWorkflowConfig) (diffHunk : String) : String :=
  if !config.codeContext.enableTruncation then diffHunk
  else
    let lines := diffHunk.splitOn "\n"
    if lines.length ≤ config.codeContext.maxCodeLines then diffHunk
    else String.intercalate "\n" (lines.take config.codeContext.maxCodeLines)
           ++ "\n... (truncated)"

/- ### Aggregated records (extract-pr-discussion.ts, lines 65-119) -/

/-- The PRInfo reference.  parseInt can produce NaN on a malformed token;
NaN is modelled as none. -/
structure PRInfo where
  number : Option Nat
  owner : String
  repo : String
  branch : Option String := none
deriving DecidableEq

/-- The PR details object assembled from the gh api jq template
(title, body, head_ref, base_ref, state, draft). -/
structure PRDetails where
  title : String
  body : Option String
  head_ref : String
  base_ref : String
  state : String
  draft : Bool
deriving DecidableEq

/-- One Linear issue comment as stored on LinearIssueInfo
(body, user.name, createdAt). -/
structure LinearComment where
  body : String
  userName : String
  createdAt : String
deriving DecidableEq

/-- One Linear attachment (url, title). -/
structure LinearAttachment where
  url : String
  title : Option String
deriving DecidableEq

/-- The assignee stored on LinearIssueInfo. -/
structure LinearAssignee where
  name : String
  email : String
deriving DecidableEq

/-- LinearIssueInfo (extract-pr-discussion.ts, lines 72-98). -/
structure LinearIssueInfo where
  id : String
  title : String
  description : Option String
  comments : List LinearComment
  attachments : List LinearAttachment
  branchName : Option String
  url : String
  state : String
  priority : Nat
  priorityLabel : String
  assignee : Option LinearAssignee
  team : String
  labels : List String
deriving DecidableEq

/-- ExtractedData (extract-pr-discussion.ts, lines 112-119). -/
structure ExtractedData where
  prInfo : Option PRInfo
  linearInfo : Option LinearIssueInfo
  prDetails : Option PRDetails := none
  reviews : List Comment
  reviewComments : List Comment
  issueComments : List Comment
deriving DecidableEq

/- ### GitHub PR aggregation (extract-pr-discussion.ts, lines 337-423).
Each gh subprocess call is modelled as an Except-valued input: error models
a call that threw (which rejects the surrounding Promise), ok carries the
records already decoded from the JSON lines of the jq output. -/

/-- The value assembled by a successful fetchPRData call. -/
structure PRFetchResult where
  prDetails : PRDetails
  reviews : List Comment
  reviewComments : List Comment
  issueComments : List Comment
deriving DecidableEq

/-- The outcomes of the five gh calls issued by fetchPRData: the existence
check returning the PR title, and the four parallel sub-fetches. -/
structure PRFetchOutcomes where
  prCheck : Except Unit String
  reviewsFetch : Except Unit (List Comment)
  commentsFetch : Except Unit (List Comment)
  issueCommentsFetch : Except Unit (List Comment)
  prDetailsFetch : Except Unit PRDetails

/-- fetchPRData: a failing or empty existence check yields null; the four
sub-fetches then run under Promise.all inside the same try block, so a
failure of any one of them rejects the join and the catch returns null for
the whole aggregation. -/
def fetchPRData (o : PRFetchOutcomes) : Option PRFetchResult :=
  match o.prCheck with
  | .error _ => none
  | .ok prCheck =>
    if prCheck = "" then none
    else
      match o.reviewsFetch, o.commentsFetch, o.issueCommentsFetch, o.prDetailsFetch with
      | .ok reviews, .ok comments, .ok issueComments, .ok prDetails =>
        some { prDetails, reviews, reviewComments := comments, issueComments }
      | _, _, _, _ => none

/- ### Linear issue aggregation (extract-pr-discussion.ts, lines 208-287) -/

/-- The raw issue record returned by linear.issue. -/
structure LinearIssueCore where
  title : String
  description : Option String
  branchName : Option String
  url : String
  priority : Option Nat
  priorityLabel : Option String
deriving DecidableEq

/-- A raw Linear comment before the user-name fallback chain is applied. -/
structure LinearRawComment where
  body : String
  userDisplayName : Option String
  userName : Option String
  createdAt : String
deriving DecidableEq

/-- The raw assignee record (displayName, name, email). -/
structure LinearRawAssignee where
  displayName : Option String
  name : Option String
  email : String
deriving DecidableEq

/-- The outcomes of the Linear SDK calls issued by fetchLinearIssue.  Every
await that can reject is an Except; object fields that can be null or
undefined are Options. -/
structure LinearFetchOutcomes where
  issueFetch : Except Unit (Option LinearIssueCore)
  commentsFetch : Except Unit (List LinearRawComment)
  stateFetch : Except Unit (Option String)
  assigneeFetch : Except Unit (Option LinearRawAssignee)
  teamFetch : Except Unit (Option String)
  labelsFetch : Except Unit (List String)
  attachmentsFetch : Except Unit (List LinearAttachment)

/-- fetchLinearIssue: null without an API key; null when the issue fetch, the
comments fetch or any of the state/assignee/team/labels fetches throws (they
all run in one try block); the attachments fetch alone runs in an inner try
whose catch ignores the error, leaving the empty attachments list in place. -/
def fetchLinearIssue (issueId : String) (hasApiKey : Bool)
    (o : LinearFetchOutcomes) : Option LinearIssueInfo :=
  if !hasApiKey then none
  else
    match o.issueFetch with
    | .error _ => none
    | .ok none => none
    | .ok (some issue) =>
      match o.commentsFetch, o.stateFetch, o.assigneeFetch, o.teamFetch, o.labelsFetch with
      | .ok commentsList, .ok state, .ok assignee, .ok team, .ok labels =>
        some
          { id := issueId
            title := issue.title
            description := issue.description
            branchName := issue.branchName
            url := issue.url
            state := jsOrStr state "Unknown"
            priority := (issue.priority.getD 0)
            priorityLabel := jsOrStr issue.priorityLabel "None"
            assignee := assignee.map (fun a =>
              { name := jsOrStr a.displayName (jsOrStr a.name "Unknown User")
                email := a.email })
            team := jsOrStr team "Unknown"
            labels := labels
            comments := commentsList.map (fun c =>
              { body := c.body
                userName := jsOrStr c.userDisplayName (jsOrStr c.userName "Unknown User")
                createdAt := c.createdAt })
            attachments :=
              match o.attachmentsFetch with
              | .ok attachmentsList => attachmentsList
              | .error _ => [] }
      | _, _, _, _, _ => none

/- ### Output formatting (extract-pr-discussion.ts, lines 501-911) -/

/-- The first default Jules rule shared by both templates. -/
def defaultJulesRule1 : String :=
  "You don\x27t have access to project environmental variables. If you must make an edit / migration of the database please instead edit prisma schema file and leave it as is, assuming a human will migrate it later."

/-- The second default Jules rule of the Linear-only template (lines 567-570). -/
def linearOnlyJulesRule2 : String :=
  "When publishing the github branch the name MUST BE THE FULL EXACT the FROM branch mentioned at the top of the output (but not the shortened version at the top of the output). For Linear-only issues without an existing branch, create an appropriate branch name from the Linear issue ID and title."

/-- The second default Jules rule of the PR template, interpolating the full
branch name (line 883). -/
def prJulesRule2 (fullBranchName : String) : String :=
  "When publishing the github branch the name MUST BE THE FULL EXACT the FROM branch mentioned at the top of the output (but not the shortened version at the top of the output). For example it will be the full: \"" ++ fullBranchName ++ "\""

/-- The Jules rules section body: the custom rules when configured, else the
two defaults, followed by the additional rules (lines 560-582 and 874-896). -/
def julesRulesSection (config : JulesWorkflowConfig) (defaultRule2 : String) : String :=
  let rulesToUse :=
    if config.output.customJulesRules.length > 0 then config.output.customJulesRules
    else [defaultJulesRule1, defaultRule2]
  config.display.customHeaders.julesRules ++ "\n"
    ++ String.join (rulesToUse.map (fun rule => "- " ++ rule ++ "\n"))
    ++ String.join (config.output.additionalJulesRules.map (fun rule => "- " ++ rule ++ "\n"))

/- #### The simplified Linear-only template (lines 514-593) -/

/-- Linear-only header section: the Linear ID when the toggle is on. -/
def linearOnlyHeaderSec (config : JulesWorkflowConfig) (linearInfo : LinearIssueInfo) : String :=
  if config.output.includeLinearIdHeader then linearInfo.id ++ "\n\n" else ""

/-- Linear-only title section, always present. -/
def linearOnlyTitleSec (linearInfo : LinearIssueInfo) : String :=
  "# " ++ linearInfo.title ++ "\n\n"

/-- Linear-only description section: the raw description when it is truthy
and the linear.includeComments toggle is on. -/
def linearOnlyDescriptionSec (config : JulesWorkflowConfig) (linearInfo : LinearIssueInfo) : String :=
  if jsTruthyStr linearInfo.description && config.integrations.linear.includeComments then
    linearInfo.description.getD "" ++ "\n\n"
  else ""

/-- Linear-only metadata section (lines 530-544). -/
def linearOnlyMetadataSec (config : JulesWorkflowConfig) (linearInfo : LinearIssueInfo) : String :=
  if config.output.includeMetadata then
    "## Metadata\n"
      ++ "- URL: [" ++ linearInfo.url ++ "](" ++ linearInfo.url ++ ")\n"
      ++ "- Identifier: " ++ linearInfo.id ++ "\n"
      ++ "- Status: " ++ linearInfo.state ++ "\n"
      ++ (match linearInfo.assignee with
          | some assignee => "- Assignee: " ++ assignee.name ++ "\n"
          | none => "")
      ++ (if linearInfo.labels.length > 0 then
            "- Labels: " ++ String.intercalate ", " linearInfo.labels ++ "\n"
          else "")
      ++ "- Priority: " ++ linearInfo.priorityLabel ++ "\n"
      ++ "- Team: " ++ linearInfo.team ++ "\n\n"
  else ""

/-- Linear-only comments section (lines 546-557). -/
def linearOnlyCommentsSec (config : JulesWorkflowConfig) (linearInfo : LinearIssueInfo) : String :=
  if linearInfo.comments.length > 0 && config.output.includeLinearDiscussion then
    "## Comments\n\n"
      ++ String.join (linearInfo.comments.map (fun comment =>
           "- " ++ comment.userName ++ ":\n\n  " ++ comment.body ++ "\n\n"))
  else ""

/-- Linear-only Jules rules section (lines 559-582). -/
def linearOnlyJulesRulesSec (config : JulesWorkflowConfig) : String :=
  if config.output.includeJulesRules then julesRulesSection config linearOnlyJulesRule2
  else ""

/-- The Linear-only return value: the six fragments joined in the fixed order
header, title, description, metadata, comments, julesRules (lines 584-592). -/
def formatLinearOnly (config : JulesWorkflowConfig) (linearInfo : LinearIssueInfo) : String :=
  linearOnlyHeaderSec config linearInfo
    ++ linearOnlyTitleSec linearInfo
    ++ linearOnlyDescriptionSec config linearInfo
    ++ linearOnlyMetadataSec config linearInfo
    ++ linearOnlyCommentsSec config linearInfo
    ++ linearOnlyJulesRulesSec config

/- #### The combined PR/Linear template (lines 595-910) -/

/-- The enhancement step (lines 647-663): tag each fetched comment with the
bot flag (exact author match against the configured bot users) and the
detected priority of its body. -/
def enhanceComment (config : JulesWorkflowConfig) (c : Comment) : Comment :=
  { c with
    isBot := some (config.filtering.botUsers.contains c.author)
    priority := some (detectPriority config c.body) }

/-- The stable ascending priority sort used by every human section
(HIGH before MEDIUM before LOW, original order preserved inside a tier). -/
def sortByPriority (comments : List Comment) : List Comment :=
  comments.mergeSort (fun a b =>
    decide (priorityOrder a.priorityBang ≤ priorityOrder b.priorityBang))

/-- The reduce of lines 711-716: group inline comments by file path (falling
back to the "General" bucket), first-seen file order, append order inside
each bucket. -/
def groupByFile (comments : List Comment) : List (String × List Comment) :=
  comments.foldl (fun acc comment =>
    let file := jsOrStr comment.path "General"
    if acc.any (fun kv => kv.1 == file) then
      acc.map (fun kv => if kv.1 == file then (kv.1, kv.2 ++ [comment]) else kv)
    else acc ++ [(file, [comment])]) []

/-- One rendered review entry of the humanReviews section (lines 689-698). -/
def renderReviewEntry (config : JulesWorkflowConfig) (index : Nat) (review : Comment) : String :=
  "**Review " ++ toString (index + 1) ++ "** "
    ++ config.priority.priorityEmojis.get review.priorityBang ++ " "
    ++ review.priorityBang.label ++ "\n"
    ++ "**Reviewer:** " ++ review.author ++ "\n"
    ++ "**State:** " ++ showOptStr review.state ++ "\n"
    ++ "**Comment:** " ++ review.body ++ "\n"
    ++ "\n"

/-- The humanReviews section body (lines 682-700). -/
def humanReviewsSec (config : JulesWorkflowConfig) (humanReviews : List Comment) : String :=
  config.display.customHeaders.humanReviews ++ "\n\n"
    ++ String.join ((sortByPriority humanReviews).enum.map
         (fun e => renderReviewEntry config e.1 e.2))

/-- One rendered inline code comment of the grouped branch (lines 727-744):
the file path is printed at the group level, not per comment. -/
def renderCodeCommentGrouped (config : JulesWorkflowConfig) (index : Nat) (comment : Comment) : String :=
  "**Comment " ++ toString (index + 1) ++ "** "
    ++ config.priority.priorityEmojis.get comment.priorityBang ++ " "
    ++ comment.priorityBang.label ++ "\n"
    ++ (if jsTruthyNat comment.line && config.codeContext.showLineNumbers then
          "**Line:** " ++ toString (comment.line.getD 0) ++ "\n"
        else "")
    ++ "**Reviewer:** " ++ comment.author ++ "\n"
    ++ "**Comment:** " ++ comment.body ++ "\n"
    ++ (if jsTruthyStr comment.diff_hunk then
          "**Code Context:**\n```\n"
            ++ truncateCodeContext config (comment.diff_hunk.getD "") ++ "\n```\n"
        else "")
    ++ "\n"

/-- One rendered inline code comment of the ungrouped branch (lines 753-773):
the file path is printed per comment when enabled. -/
def renderCodeCommentFlat (config : JulesWorkflowConfig) (index : Nat) (comment : Comment) : String :=
  "**Comment " ++ toString (index + 1) ++ "** "
    ++ config.priority.priorityEmojis.get comment.priorityBang ++ " "
    ++ comment.priorityBang.label ++ "\n"
    ++ (if config.codeContext.showFilePaths && jsTruthyStr comment.path then
          "**File:** " ++ comment.path.getD "" ++ "\n"
        else "")
    ++ (if jsTruthyNat comment.line && config.codeContext.showLineNumbers then
          "**Line:** " ++ toString (comment.line.getD 0) ++ "\n"
        else "")
    ++ "**Reviewer:** " ++ comment.author ++ "\n"
    ++ "**Comment:** " ++ comment.body ++ "\n"
    ++ (if jsTruthyStr comment.diff_hunk then
          "**Code Context:**\n```\n"
            ++ truncateCodeContext config (comment.diff_hunk.getD "") ++ "\n```\n"
        else "")
    ++ "\n"

/-- The humanCodeComments section body (lines 703-776). -/
def humanCodeCommentsSec (config : JulesWorkflowConfig) (humanReviewComments : List Comment) : String :=
  config.display.customHeaders.humanCodeComments ++ "\n\n"
    ++ (if config.codeContext.groupCommentsByFile then
          String.join ((groupByFile humanReviewComments).map (fun fileGroup =>
            (if config.codeContext.showFilePaths then
               "**File: " ++ fileGroup.1 ++ "**\n"
             else "")
              ++ String.join ((sortByPriority fileGroup.2).enum.map
                   (fun e => renderCodeCommentGrouped config e.1 e.2))))
        else
          String.join ((sortByPriority humanReviewComments).enum.map
            (fun e => renderCodeCommentFlat config e.1 e.2)))

/-- One rendered general discussion comment (lines 789-798). -/
def renderGeneralCommentEntry (config : JulesWorkflowConfig) (index : Nat) (comment : Comment) : String :=
  "**Comment " ++ toString (index + 1) ++ "** "
    ++ config.priority.priorityEmojis.get comment.priorityBang ++ " "
    ++ comment.priorityBang.label ++ "\n"
    ++ "**Author:** " ++ comment.author ++ "\n"
    ++ "**Comment:** " ++ comment.body ++ "\n"
    ++ "**Posted:** " ++ showOptStr comment.created_at ++ "\n"
    ++ "\n"

/-- The humanGeneralComments section body (lines 779-800). -/
def humanGeneralCommentsSec (config : JulesWorkflowConfig) (humanIssueComments : List Comment) : String :=
  config.display.customHeaders.humanGeneralComments ++ "\n\n"
    ++ String.join ((sortByPriority humanIssueComments).enum.map
         (fun e => renderGeneralCommentEntry config e.1 e.2))

/-- The one-line bot summaries pushed into a priority bucket (lines 815-823):
all bot comments with the given tier, in concatenated fetch-group order, each
summarized as author, colon, first 100 characters of the body, ellipsis. -/
def botSummaryFor (tier : Priority) (allBotComments : List Comment) : List String :=
  (allBotComments.filter (fun comment => comment.priorityBang == tier)).map
    (fun comment => comment.author ++ ": " ++ substrTo comment.body 100 ++ "...")

/-- One rendered priority bucket of the botFeedback section (lines 825-842):
a tier heading, at most maxBotItemsPerPriority bulleted summaries, and an
overflow line when the cap is exceeded; empty buckets render nothing. -/
def botBucketSec (config : JulesWorkflowConfig) (tier : Priority) (items : List String) : String :=
  if items.length > 0 then
    "**" ++ tier.label ++ " Priority " ++ config.priority.priorityEmojis.get tier
      ++ "** (" ++ toString items.length ++ " items)\n"
      ++ String.join ((items.take config.filtering.maxBotItemsPerPriority).map
           (fun item => "• " ++ item ++ "\n"))
      ++ (if items.length > config.filtering.maxBotItemsPerPriority then
            "• ... and " ++ toString (items.length - config.filtering.maxBotItemsPerPriority)
              ++ " more\n"
          else "")
      ++ "\n"
  else ""

/-- The botFeedback section body (lines 802-843), iterating the buckets in
the insertion order HIGH, MEDIUM, LOW of Object.entries. -/
def botFeedbackSec (config : JulesWorkflowConfig) (allBotComments : List Comment) : String :=
  config.display.customHeaders.botFeedback
    ++ " (" ++ toString allBotComments.length ++ " items)\n\n"
    ++ botBucketSec config .HIGH (botSummaryFor .HIGH allBotComments)
    ++ botBucketSec config .MEDIUM (botSummaryFor .MEDIUM allBotComments)
    ++ botBucketSec config .LOW (botSummaryFor .LOW allBotComments)

/-- The actionItems section body (lines 846-871). -/
def actionItemsSec (config : JulesWorkflowConfig) (allHumanComments : List Comment)
    (totalBotComments : Nat) : String :=
  let highPriorityCount :=
    (allHumanComments.filter (fun c => c.priority == some Priority.HIGH)).length
  let mediumPriorityCount :=
    (allHumanComments.filter (fun c => c.priority == some Priority.MEDIUM)).length
  config.display.customHeaders.actionItems ++ "\n"
    ++ (if highPriorityCount > 0 then
          config.priority.priorityEmojis.HIGH ++ " **URGENT**: "
            ++ toString highPriorityCount
            ++ " high priority items requiring immediate attention\n"
        else "")
    ++ (if mediumPriorityCount > 0 then
          config.priority.priorityEmojis.MEDIUM ++ " **IMPORTANT**: "
            ++ toString mediumPriorityCount ++ " medium priority improvements\n"
        else "")
    ++ "📊 **TOTAL**: " ++ toString allHumanComments.length
    ++ " human feedback items + " ++ toString totalBotComments ++ " bot suggestions\n"
    ++ "\n"

/-- The rendered-section mapping of the combined template (lines 595-896):
each section name is inserted at most once, guarded by its content and
configuration toggles. -/
def buildPRSections (config : JulesWorkflowConfig) (extractedData : ExtractedData) :
    List (String × String) :=
  let fullBranchName :=
    jsOrStr (extractedData.prDetails.map PRDetails.head_ref)
      (jsOrStr (extractedData.linearInfo.bind LinearIssueInfo.branchName) "unknown")
  let allReviews := extractedData.reviews.map (enhanceComment config)
  let allReviewComments := extractedData.reviewComments.map (enhanceComment config)
  let allIssueComments := extractedData.issueComments.map (enhanceComment config)
  let humanReviews :=
    deduplicateComments config (allReviews.filter (fun r => !r.isBotTruthy))
  let botReviews :=
    deduplicateComments config (allReviews.filter (fun r => r.isBotTruthy))
  let humanReviewComments :=
    deduplicateComments config (allReviewComments.filter (fun c => !c.isBotTruthy))
  let botReviewComments :=
    deduplicateComments config (allReviewComments.filter (fun c => c.isBotTruthy))
  let humanIssueComments :=
    deduplicateComments config (allIssueComments.filter (fun c => !c.isBotTruthy))
  let botIssueComments :=
    deduplicateComments config (allIssueComments.filter (fun c => c.isBotTruthy))
  let allBotComments := botReviews ++ botReviewComments ++ botIssueComments
  let totalBotComments := allBotComments.length
  let allHumanComments := humanReviews ++ humanReviewComments ++ humanIssueComments
  (if config.output.includeBranchNameHeader then
     [("header", fullBranchName ++ "\n\n")] else [])
  ++ (if config.output.includeUnifiedSummaryHeader then
        [("summaryHeader", "**UNIFIED PR/ISSUE DISCUSSION SUMMARY**\n\n")] else [])
  ++ (match extractedData.prInfo, extractedData.prDetails with
      | some prInfo, some prDetails =>
        if config.integrations.github.includePRDescription then
          [("prOverview",
            "**GitHub PR Overview**\n"
              ++ "Title: " ++ prDetails.title ++ "\n"
              ++ "Branch: " ++ prDetails.head_ref ++ " → " ++ prDetails.base_ref ++ "\n"
              ++ "State: " ++ prDetails.state
              ++ (if prDetails.draft then " (Draft)" else "") ++ "\n"
              ++ "URL: https://github.com/" ++ prInfo.owner ++ "/" ++ prInfo.repo
              ++ "/pull/" ++ showOptNat prInfo.number ++ "\n"
              ++ (if jsTruthyStr prDetails.body then
                    "Description: " ++ prDetails.body.getD "" ++ "\n"
                  else "")
              ++ "\n")]
        else []
      | _, _ => [])
  ++ (match extractedData.linearInfo with
      | some linearInfo =>
        if config.integrations.linear.includeComments then
          [("linearOverview",
            "**Linear Issue Context**\n"
              ++ "ID: " ++ linearInfo.id ++ "\n"
              ++ "Title: " ++ linearInfo.title ++ "\n"
              ++ (if jsTruthyStr linearInfo.description then
                    "Description: " ++ linearInfo.description.getD "" ++ "\n"
                  else "")
              ++ (if jsTruthyStr linearInfo.branchName then
                    "Branch: " ++ linearInfo.branchName.getD "" ++ "\n"
                  else "")
              ++ (if linearInfo.comments.length > 0 then
                    "\nLinear Discussion:\n"
                      ++ String.join (linearInfo.comments.map (fun comment =>
                           "**" ++ comment.userName ++ ":** " ++ comment.body ++ "\n"))
                  else "")
              ++ "\n")]
        else []
      | none => [])
  ++ (if humanReviews.length > 0 && config.integrations.github.includeReviews then
        [("humanReviews", humanReviewsSec config humanReviews)] else [])
  ++ (if humanReviewComments.length > 0
        && config.integrations.github.includeReviewComments then
        [("humanCodeComments", humanCodeCommentsSec config humanReviewComments)] else [])
  ++ (if humanIssueComments.length > 0
        && config.integrations.github.includeIssueComments then
        [("humanGeneralComments", humanGeneralCommentsSec config humanIssueComments)] else [])
  ++ (if totalBotComments > 0 && config.filtering.includeBotFeedback then
        [("botFeedback", botFeedbackSec config allBotComments)] else [])
  ++ (if allHumanComments.length > 0 then
        [("actionItems", actionItemsSec config allHumanComments totalBotComments)] else [])
  ++ (if config.output.includeJulesRules then
        [("julesRules", julesRulesSection config (prJulesRule2 fullBranchName))] else [])

/-- The output assembly loop (lines 898-908): walk the configured section
order; a name bound to a truthy fragment is appended when empty sections are
included or the fragment does not trim to the empty string. -/
def assembleSections (sectionOrder : List String) (sections : List (String × String))
    (includeEmptySections : Bool) : String :=
  sectionOrder.foldl (fun output sectionName =>
    match sections.lookup sectionName with
    | some frag =>
      if frag != "" && (includeEmptySections || jsTrimTruthy frag) then output ++ frag
      else output
    | none => output) ""

/-- formatOutput (lines 501-911): the simplified single-entity template for
Linear-only extractions, the section mapping plus configured-order assembly
otherwise. -/
def formatOutput (config : JulesWorkflowConfig) (extractedData : ExtractedData) : String :=
  match extractedData.linearInfo, extractedData.prInfo with
  | some linearInfo, none => formatLinearOnly config linearInfo
  | _, _ =>
    assembleSections config.output.sectionOrder (buildPRSections config extractedData)
      config.filtering.includeEmptySections

/- ### Input resolution (extract-pr-discussion.ts, lines 182-335 and 913-1037) -/

/-- The owner/repo pair parsed from the git remote by getCurrentRepoInfo. -/
structure RepoInfo where
  owner : String
  repo : String
deriving DecidableEq

/-- Drop an expected literal from the front of a character list. -/
def dropLiteral : List Char → List Char → Option (List Char)
  | [], cs => some cs
  | _ :: _, [] => none
  | p :: ps, c :: cs => if p == c then dropLiteral ps cs else none

/-- Fold a digit run into its numeric value, as parseInt does. -/
def digitsToNat (ds : List Char) : Nat :=
  ds.foldl (fun n c => n * 10 + (c.toNat - 48)) 0

/-- Try the GitHub pull-request URL pattern at one start position:
the literal github.com/, a non-empty slash-free owner, a slash, a non-empty
slash-free repo, the literal /pull/, one or more digits. -/
def matchPRUrlAt (cs : List Char) : Option (String × String × Nat) := do
  let rest ← dropLiteral "github.com/".data cs
  let owner := rest.takeWhile (fun c => !(c == '/'))
  if owner = [] then none
  else
    match rest.drop owner.length with
    | '/' :: rest1 =>
      let repo := rest1.takeWhile (fun c => !(c == '/'))
      if repo = [] then none
      else
        match rest1.drop repo.length with
        | '/' :: rest2 => do
          let rest3 ← dropLiteral "pull/".data rest2
          let digits := rest3.takeWhile Char.isDigit
          if digits = [] then none
          else some (String.mk owner, String.mk repo, digitsToNat digits)
        | _ => none
    | _ => none

/-- The regex scan of line 294: try the pull-request URL pattern at every
start position, leftmost match wins. -/
def matchPRUrl : List Char → Option (String × String × Nat)
  | [] => none
  | c :: cs =>
    match matchPRUrlAt (c :: cs) with
    | some m => some m
    | none => matchPRUrl cs

/-- findPRFromLinearAttachments (lines 289-310): the first attachment whose
URL matches the pull-request pattern yields the PR reference. -/
def findPRFromLinearAttachments (linearInfo : LinearIssueInfo) : Option PRInfo :=
  go linearInfo.attachments
where
  go : List LinearAttachment → Option PRInfo
    | [] => none
    | attachment :: rest =>
      match matchPRUrl attachment.url.data with
      | some m => some { owner := m.1, repo := m.2.1, number := some m.2.2 }
      | none => go rest

/-- Try the Linear issue-id pattern at one start position: two to ten
capital letters, a hyphen, one or more digits.  A longer capital run cannot
match here because the character after the chosen capital run must be the
hyphen. -/
def matchLinearIdAt (cs : List Char) : Option String :=
  let uppers := cs.takeWhile Char.isUpper
  if 2 ≤ uppers.length && uppers.length ≤ 10 then
    match cs.drop uppers.length with
    | '-' :: rest =>
      let digits := rest.takeWhile Char.isDigit
      if digits = [] then none
      else some (String.mk (uppers ++ '-' :: digits))
    | _ => none
  else none

/-- The regex scan of line 997: try the Linear issue-id pattern at every
start position, leftmost match wins. -/
def matchLinearId : List Char → Option String
  | [] => none
  | c :: cs =>
    match matchLinearIdAt (c :: cs) with
    | some m => some m
    | none => matchLinearId cs

/-- Model of JavaScript parseInt on the CLI token: the leading digit run, or
none for NaN when the token does not start with a digit. -/
def parseIntJS (s : String) : Option Nat :=
  let digits := s.data.takeWhile Char.isDigit
  if digits = [] then none else some (digitsToNat digits)

/-- The external world of one processInput run: the subprocess and API call
outcomes, the interactive-prompt answers (already trimmed, as promptUser
trims them), and the suppress-logs flag set by the no-clipboard-output CLI
option. -/
structure ProcessEnv where
  hasLinearApiKey : Bool
  linearOutcomes : String → LinearFetchOutcomes
  repoInfo : Option RepoInfo
  prFetchOutcomes : PRInfo → PRFetchOutcomes
  prListForBranch : String → Except Unit (List Nat)
  promptAnswer : String → String
  suppressLogs : Bool

/-- findPRFromBranch (lines 312-335): look up the current repo and the open
PRs whose head is the branch; any subprocess error is swallowed and yields
null. -/
def findPRFromBranch (env : ProcessEnv) (branchName : String) : Option PRInfo :=
  match env.repoInfo with
  | none => none
  | some repoInfo =>
    match env.prListForBranch branchName with
    | .error _ => none
    | .ok [] => none
    | .ok (number :: _) =>
      some { owner := repoInfo.owner, repo := repoInfo.repo,
             number := some number, branch := some branchName }

/-- The error message thrown at lines 1030-1034 when nothing was found. -/
def noDataMessage (input : String) : String :=
  "Could not find data for " ++ input
    ++ ". Make sure the ID/number is correct and you have access."

/-- An ExtractedData value holding only a Linear issue. -/
def linearOnlyData (linearInfo : LinearIssueInfo) : ExtractedData :=
  { prInfo := none, linearInfo := some linearInfo,
    reviews := [], reviewComments := [], issueComments := [] }

/-- processInput (lines 913-1037).  A token containing a capital letter is
treated as a Linear id: fetch the issue, then look for a PR through the
attachments, the stored branch name, and finally an interactive prompt; a
plain token is treated as a PR number: fetch the PR data, then look for a
Linear issue through the head-branch name and finally a prompt.  When
nothing was found the run fails with the no-data error naming the token. -/
def processInput (config : JulesWorkflowConfig) (env : ProcessEnv) (input : String) :
    Except String ExtractedData :=
  let isLinearId := input.data.any Char.isUpper
  if isLinearId then
    match fetchLinearIssue input env.hasLinearApiKey (env.linearOutcomes input) with
    | none => .error (noDataMessage input)
    | some linearInfo =>
      let prInfoFound :=
        match findPRFromLinearAttachments linearInfo with
        | some prInfo => some prInfo
        | none =>
          if jsTruthyStr linearInfo.branchName then
            findPRFromBranch env (linearInfo.branchName.getD "")
          else none
      match prInfoFound with
      | some prInfo =>
        match fetchPRData (env.prFetchOutcomes prInfo) with
        | some prData =>
          .ok { prInfo := some prInfo, linearInfo := some linearInfo,
                prDetails := some prData.prDetails, reviews := prData.reviews,
                reviewComments := prData.reviewComments,
                issueComments := prData.issueComments }
        | none =>
          .ok { linearOnlyData linearInfo with prInfo := some prInfo }
      | none =>
        if !env.suppressLogs && config.workflow.enableInteractivePrompts then
          let prNumber :=
            env.promptAnswer "🤔 Enter GitHub PR number (or press Enter to skip): "
          if prNumber ≠ "" then
            match env.repoInfo with
            | none => .ok (linearOnlyData linearInfo)
            | some repoInfo =>
              let prInfo : PRInfo :=
                { owner := repoInfo.owner, repo := repoInfo.repo,
                  number := parseIntJS prNumber }
              match fetchPRData (env.prFetchOutcomes prInfo) with
              | some prData =>
                .ok { prInfo := some prInfo, linearInfo := some linearInfo,
                      prDetails := some prData.prDetails, reviews := prData.reviews,
                      reviewComments := prData.reviewComments,
                      issueComments := prData.issueComments }
              | none => .ok (linearOnlyData linearInfo)
          else .ok (linearOnlyData linearInfo)
        else .ok (linearOnlyData linearInfo)
  else
    match env.repoInfo with
    | none => .error (noDataMessage input)
    | some repoInfo =>
      let prInfo : PRInfo :=
        { owner := repoInfo.owner, repo := repoInfo.repo, number := parseIntJS input }
      match fetchPRData (env.prFetchOutcomes prInfo) with
      | none => .error (noDataMessage input)
      | some prData =>
        let branchName := prData.prDetails.head_ref
        let linearFromBranch :=
          if branchName ≠ "" then
            match matchLinearId branchName.data with
            | some linearId =>
              fetchLinearIssue linearId env.hasLinearApiKey (env.linearOutcomes linearId)
            | none => none
          else none
        let linearInfo :=
          match linearFromBranch with
          | some li => some li
          | none =>
            if !env.suppressLogs && config.workflow.enableInteractivePrompts then
              let linearId :=
                env.promptAnswer "🤔 Enter Linear issue ID (or press Enter to skip): "
              if linearId ≠ "" then
                fetchLinearIssue linearId env.hasLinearApiKey (env.linearOutcomes linearId)
              else none
            else none
        .ok { prInfo := some prInfo, linearInfo := linearInfo,
              prDetails := some prData.prDetails, reviews := prData.reviews,
              reviewComments := prData.reviewComments,
              issueComments := prData.issueComments }

/- ### Helper lemmas about the deduplicator -/

theorem dedupFilter_agrees_specFirstOccurrences (l : List Comment) :
    ∀ seen prev, (∀ k, k ∈ seen ↔ k ∈ prev) →
    dedupFilter seen l = specFirstOccurrences prev l := by
  induction l with
  | nil => intro seen prev _; rfl
  | cons c cs ih =>
    intro seen prev hiff
    by_cases h : commentKey c ∈ seen
    · have hp : commentKey c ∈ prev := (hiff _).1 h
      simp only [dedupFilter, specFirstOccurrences, if_pos h, if_pos hp]
      exact ih seen (commentKey c :: prev) (fun k => by
        constructor
        · intro hk; exact List.mem_cons_of_mem _ ((hiff k).1 hk)
        · intro hk
          rcases List.mem_cons.1 hk with hk | hk
          · exact hk ▸ h
          · exact (hiff k).2 hk)
    · have hp : commentKey c ∉ prev := fun hk => h ((hiff _).2 hk)
      simp only [dedupFilter, specFirstOccurrences, if_neg h, if_neg hp]
      refine congrArg (c :: ·) (ih _ _ (fun k => ?_))
      simp only [List.mem_cons]
      exact or_congr Iff.rfl (hiff k)

theorem dedupFilter_keys_nodup (l : List Comment) :
    ∀ seen, ((dedupFilter seen l).map commentKey).Nodup ∧
      ∀ c ∈ dedupFilter seen l, commentKey c ∉ seen := by
  induction l with
  | nil => intro seen; simp [dedupFilter]
  | cons c cs ih =>
    intro seen
    by_cases h : commentKey c ∈ seen
    · simpa only [dedupFilter, if_pos h] using ih seen
    · simp only [dedupFilter, if_neg h]
      obtain ⟨h1, h2⟩ := ih (commentKey c :: seen)
      refine ⟨?_, ?_⟩
      · simp only [List.map_cons, List.nodup_cons]
        refine ⟨?_, h1⟩
        intro hk
        rcases List.mem_map.1 hk with ⟨d, hd, hkey⟩
        exact h2 d hd (hkey ▸ List.mem_cons_self _ _)
      · intro d hd
        rcases List.mem_cons.1 hd with hd | hd
        · exact hd ▸ h
        · intro hds
          exact h2 d hd (List.mem_cons_of_mem _ hds)

theorem dedupFilter_of_nodup (l : List Comment) :
    ∀ seen, (l.map commentKey).Nodup → (∀ c ∈ l, commentKey c ∉ seen) →
    dedupFilter seen l = l := by
  induction l with
  | nil => intro seen _ _; rfl
  | cons c cs ih =>
    intro seen hnd havoid
    rw [List.map_cons] at hnd
    obtain ⟨hnotmem, htail⟩ := List.nodup_cons.1 hnd
    have hc : commentKey c ∉ seen := havoid c (List.mem_cons_self _ _)
    simp only [dedupFilter, if_neg hc]
    refine congrArg (c :: ·) (ih _ htail ?_)
    intro d hd
    have hne : commentKey d ≠ commentKey c := by
      intro heq
      exact hnotmem (heq ▸ List.mem_map_of_mem commentKey hd)
    intro hds
    rcases List.mem_cons.1 hds with hds | hds
    · exact hne hds
    · exact havoid d (List.mem_cons_of_mem _ hd) hds

/- ### Claim C4 -/

/-- A comment whose author itself contains a colon. -/
def c4First : Comment := { author := "a:b", body := "c" }

/-- A comment with a different (author, body-head) pair that serializes to
the same colon-joined key a:b:c. -/
def c4Second : Comment := { author := "a", body := "b:c" }

/-- C4 counterexample: the two comments have distinct
(author, first-100-characters) pairs, so under the claimed pair key both
must be kept, yet the deduplicator drops the second one because the
implementation joins author and body head with a colon into one string and
both items serialize to a:b:c. -/
theorem C4_counterexample :
    (c4First.author, substrTo c4First.body 100) ≠
      (c4Second.author, substrTo c4Second.body 100) ∧
    commentKey c4First = commentKey c4Second ∧
    specFirstOccurrencesPair [] [c4First, c4Second] = [c4First, c4Second] ∧
    deduplicateComments DEFAULT_CONFIG [c4First, c4Second] = [c4First] ∧
    deduplicateComments DEFAULT_CONFIG [c4First, c4Second] ≠
      specFirstOccurrencesPair [] [c4First, c4Second] := by
  refine ⟨by decide, by decide, by decide, by decide, by decide⟩

/-- C4 (amended): within one origin group, when deduplication is enabled the
deduplicator keeps exactly the items whose colon-serialized key (the string
author, colon, first 100 characters of the body) has not occurred earlier in
the list (the first occurrence of each such key, unchanged and in original
order) — distinct (author, body-head) pairs whose serializations coincide
are conflated — and when deduplication is disabled it is the identity. -/
theorem C4_deduplicateComments_first_occurrences
    (config : JulesWorkflowConfig) (comments : List Comment) :
    deduplicateComments config comments =
      if config.filtering.enableDeduplication then specFirstOccurrences [] comments
      else comments := by
  by_cases h : config.filtering.enableDeduplication
  · simp only [deduplicateComments, if_pos h]
    exact dedupFilter_agrees_specFirstOccurrences comments [] [] (fun k => Iff.rfl)
  · simp only [deduplicateComments, if_neg h]

/- ### Claim C7 -/

/-- C7: the deduplicator is idempotent for every configuration: applied to
its own output it returns that output unchanged. -/
theorem C7_deduplicateComments_idempotent
    (config : JulesWorkflowConfig) (comments : List Comment) :
    deduplicateComments config (deduplicateComments config comments) =
      deduplicateComments config comments := by
  by_cases h : config.filtering.enableDeduplication
  · simp only [deduplicateComments, if_pos h]
    obtain ⟨hnd, _⟩ := dedupFilter_keys_nodup comments []
    exact dedupFilter_of_nodup _ [] hnd (fun c _ => List.not_mem_nil _)
  · simp only [deduplicateComments, if_neg h]

/- ### Claim C1 -/

/-- A loaded configuration whose user file adds the mixed-case HIGH keyword
Hotfix. -/
def c1UserConfig : JulesWorkflowConfig :=
  loadConfigKeywords DEFAULT_CONFIG { HIGH := ["Hotfix"], MEDIUM := [], LOW := [] }

/-- C1 counterexample: with the active HIGH keyword Hotfix, the body
Hotfix needed contains that HIGH-tier keyword verbatim, yet the classifier
returns the default tier MEDIUM instead of HIGH, because keywords are
compared against the lowercased body without being lowercased themselves. -/
theorem C1_counterexample :
    "Hotfix" ∈ (getAllPriorityKeywords c1UserConfig).HIGH ∧
    strIncludes "Hotfix needed" "Hotfix" = true ∧
    detectPriority c1UserConfig "Hotfix needed" ≠ Priority.HIGH ∧
    detectPriority c1UserConfig "Hotfix needed" = Priority.MEDIUM := by
  refine ⟨by decide, by decide, by decide, by decide⟩

/-- C1 (amended): the classifier returns the first tier, in the fixed order
HIGH, MEDIUM, LOW, whose keyword set contains a keyword occurring verbatim
in the lowercased body; a body whose lowercasing contains a HIGH-tier
keyword is classified HIGH even when MEDIUM or LOW keywords also occur, and
a body matching no keyword in any tier gets the configured default tier,
which is MEDIUM in the default configuration. -/
theorem C1_detectPriority_first_match
    (config : JulesWorkflowConfig) (body : String) :
    (tierMatches (getAllPriorityKeywords config).HIGH body = true →
      detectPriority config body = Priority.HIGH) ∧
    (tierMatches (getAllPriorityKeywords config).HIGH body = false →
      tierMatches (getAllPriorityKeywords config).MEDIUM body = true →
      detectPriority config body = Priority.MEDIUM) ∧
    (tierMatches (getAllPriorityKeywords config).HIGH body = false →
      tierMatches (getAllPriorityKeywords config).MEDIUM body = false →
      tierMatches (getAllPriorityKeywords config).LOW body = true →
      detectPriority config body = Priority.LOW) ∧
    (tierMatches (getAllPriorityKeywords config).HIGH body = false →
      tierMatches (getAllPriorityKeywords config).MEDIUM body = false →
      tierMatches (getAllPriorityKeywords config).LOW body = false →
      detectPriority config body = config.priority.defaultPriority) ∧
    DEFAULT_CONFIG.priority.defaultPriority = Priority.MEDIUM := by
  refine ⟨?_, ?_, ?_, ?_, rfl⟩
  · intro h1
    simp only [tierMatches] at h1
    simp only [detectPriority, List.find?, h1]
  · intro h1 h2
    simp only [tierMatches] at h1 h2
    simp only [detectPriority, List.find?, h1, h2]
  · intro h1 h2 h3
    simp only [tierMatches] at h1 h2 h3
    simp only [detectPriority, List.find?, h1, h2, h3]
  · intro h1 h2 h3
    simp only [tierMatches] at h1 h2 h3
    simp only [detectPriority, List.find?, h1, h2, h3]

/-- C1 witness: with the default keyword lists loaded, a body containing the
HIGH keywords critical and bug together with the LOW keyword typo is
classified HIGH. -/
theorem C1_witness :
    detectPriority (loadConfigKeywords DEFAULT_CONFIG ⟨[], [], []⟩)
      "Critical bug, but also a typo" = Priority.HIGH :=
  (C1_detectPriority_first_match (loadConfigKeywords DEFAULT_CONFIG ⟨[], [], []⟩)
    "Critical bug, but also a typo").1 (by decide)

/- ### Claim C8 -/

/-- C8: classification is case-insensitive in the body: two bodies with the
same lowercasing (in particular, bodies differing only in letter case)
receive the same tier under every configuration. -/
theorem C8_detectPriority_case_insensitive
    (config : JulesWorkflowConfig) (b1 b2 : String)
    (h : toLowerJS b1 = toLowerJS b2) :
    detectPriority config b1 = detectPriority config b2 := by
  simp only [detectPriority, h]

/-- C8 witness: an all-caps and an all-lowercase variant of the same body
are classified identically under the loaded default configuration. -/
theorem C8_witness :
    toLowerJS "SECURITY Bug!" = toLowerJS "security bug!" ∧
    detectPriority (loadConfigKeywords DEFAULT_CONFIG ⟨["Fix"], [], []⟩) "SECURITY Bug!" =
      detectPriority (loadConfigKeywords DEFAULT_CONFIG ⟨["Fix"], [], []⟩) "security bug!" :=
  ⟨by decide,
   C8_detectPriority_case_insensitive
     (loadConfigKeywords DEFAULT_CONFIG ⟨["Fix"], [], []⟩)
     "SECURITY Bug!" "security bug!" (by decide)⟩

/- ### Helper lemmas about the keyword merge -/

/-- Select one tier list of a keyword table. -/
def PriorityKeywords.tier (k : PriorityKeywords) : Priority → List String
  | .HIGH => k.HIGH
  | .MEDIUM => k.MEDIUM
  | .LOW => k.LOW

theorem dedupeJsSet_mem (l : List String) :
    ∀ seen x, x ∈ deepMergeArray.dedupeJsSet seen l ↔ (x ∈ l ∧ x ∉ seen) := by
  induction l with
  | nil => intro seen x; simp [deepMergeArray.dedupeJsSet]
  | cons a as ih =>
    intro seen x
    by_cases h : a ∈ seen
    · simp only [deepMergeArray.dedupeJsSet, if_pos h, ih, List.mem_cons]
      constructor
      · rintro ⟨hx, hs⟩; exact ⟨Or.inr hx, hs⟩
      · rintro ⟨hx | hx, hs⟩
        · exact absurd (hx ▸ h) hs
        · exact ⟨hx, hs⟩
    · simp only [deepMergeArray.dedupeJsSet, if_neg h, List.mem_cons, ih]
      constructor
      · rintro (rfl | ⟨hx, hs⟩)
        · exact ⟨Or.inl rfl, h⟩
        · exact ⟨Or.inr hx, fun hsx => hs (Or.inr hsx)⟩
      · rintro ⟨rfl | hx, hs⟩
        · exact Or.inl rfl
        · by_cases hxa : x = a
          · exact Or.inl hxa
          · exact Or.inr ⟨hx, fun hsx => by
              rcases hsx with hsx | hsx
              · exact hxa hsx
              · exact hs hsx⟩

theorem dedupeJsSet_nodup (l : List String) :
    ∀ seen, (deepMergeArray.dedupeJsSet seen l).Nodup := by
  induction l with
  | nil => intro seen; simp [deepMergeArray.dedupeJsSet]
  | cons a as ih =>
    intro seen
    by_cases h : a ∈ seen
    · simpa only [deepMergeArray.dedupeJsSet, if_pos h] using ih seen
    · simp only [deepMergeArray.dedupeJsSet, if_neg h, List.nodup_cons]
      refine ⟨fun hmem => ?_, ih _⟩
      exact ((dedupeJsSet_mem as _ a).1 hmem).2 (List.mem_cons_self _ _)

/- ### Claim C9 -/

/-- C9 counterexample: a user configuration adding the HIGH keyword security,
which is already a built-in default, produces an effective HIGH list
containing security twice, so the effective list is not duplicate-free as
the claim states. -/
theorem C9_counterexample :
    ¬ ((loadedCustomKeywords { HIGH := ["security"], MEDIUM := [], LOW := [] }).HIGH).Nodup := by
  decide

/-- C9 (amended): the effective keyword list of each tier consumed by the
classifier is the built-in defaults followed by the user additions
deduplicated among themselves: it contains every default keyword and every
user keyword, and it is duplicate-free exactly when no user addition equals
a built-in default of that tier. -/
theorem C9_loadedKeywords_union
    (merged : JulesWorkflowConfig) (userKeywords : PriorityKeywords) (tier : Priority) :
    (getAllPriorityKeywords (loadConfigKeywords merged userKeywords) =
       loadedCustomKeywords userKeywords) ∧
    ((loadedCustomKeywords userKeywords).tier tier =
       defaultPriorityKeywords.tier tier
         ++ deepMergeArray [] (userKeywords.tier tier)) ∧
    (∀ k, k ∈ (loadedCustomKeywords userKeywords).tier tier ↔
       (k ∈ defaultPriorityKeywords.tier tier ∨ k ∈ userKeywords.tier tier)) ∧
    ((∀ k ∈ userKeywords.tier tier, k ∉ defaultPriorityKeywords.tier tier) →
       ((loadedCustomKeywords userKeywords).tier tier).Nodup) ∧
    ((∃ k ∈ userKeywords.tier tier, k ∈ defaultPriorityKeywords.tier tier) →
       ¬ ((loadedCustomKeywords userKeywords).tier tier).Nodup) := by
  have heq : (loadedCustomKeywords userKeywords).tier tier =
      defaultPriorityKeywords.tier tier ++ deepMergeArray [] (userKeywords.tier tier) := by
    cases tier <;> rfl
  have hmemdedup : ∀ x, x ∈ deepMergeArray [] (userKeywords.tier tier) ↔
      x ∈ userKeywords.tier tier := by
    intro x
    simp only [deepMergeArray]
    rw [dedupeJsSet_mem]
    simp
  have hdefnodup : (defaultPriorityKeywords.tier tier).Nodup := by
    cases tier <;> decide
  refine ⟨rfl, heq, ?_, ?_, ?_⟩
  · intro k
    rw [heq, List.mem_append, hmemdedup]
  · intro hdisj
    rw [heq, List.nodup_append]
    refine ⟨hdefnodup, dedupeJsSet_nodup _ _, ?_⟩
    intro k hk hk2
    exact hdisj k ((hmemdedup k).1 hk2) hk
  · rintro ⟨k, hku, hkd⟩ hnd
    rw [heq, List.nodup_append] at hnd
    exact hnd.2.2 hkd ((hmemdedup k).2 hku)

/-- C9 witness: a user HIGH addition not among the defaults yields a
duplicate-free effective HIGH list. -/
theorem C9_witness :
    ((loadedCustomKeywords { HIGH := ["deployment"], MEDIUM := [], LOW := [] }).HIGH).Nodup := by
  have h := (C9_loadedKeywords_union DEFAULT_CONFIG
    { HIGH := ["deployment"], MEDIUM := [], LOW := [] } Priority.HIGH).2.2.2.1
  exact h (by decide)

/- ### Claim C2 -/

/-- A sample review comment for the C2 scenario. -/
def c2Comment : Comment := { author := "alice", body := "looks good" }

/-- A sample PR details record for the C2 scenario. -/
def c2Details : PRDetails :=
  { title := "t", body := none, head_ref := "feat/x", base_ref := "main",
    state := "open", draft := false }

/-- Fetch outcomes where only the reviews sub-fetch fails. -/
def c2Outcomes : PRFetchOutcomes :=
  { prCheck := .ok "t", reviewsFetch := .error (),
    commentsFetch := .ok [c2Comment], issueCommentsFetch := .ok [],
    prDetailsFetch := .ok c2Details }

/-- C2 counterexample: when the reviews sub-fetch fails while the inline
comments, discussion comments and PR details succeed, fetchPRData returns
null for the whole aggregation instead of keeping the successful results
with an empty reviews list as the claim states. -/
theorem C2_counterexample :
    fetchPRData c2Outcomes = none ∧
    fetchPRData c2Outcomes ≠
      some { prDetails := c2Details, reviews := [],
             reviewComments := [c2Comment], issueComments := [] } := by
  refine ⟨by decide, by decide⟩

/-- C2 (amended): only the Linear attachments sub-fetch is recovered locally
(a failing attachments fetch is equivalent to an empty attachments list,
all other Linear fields kept); a failure of any one GitHub sub-fetch is
caught at the whole-PR level and converts the entire PR fetch to null
(all four components absent); the overall aggregation still proceeds, the
resolved Linear data being kept with empty comment lists. -/
theorem C2_subfetch_recovery
    (issueId : String) (hasApiKey : Bool) (o : LinearFetchOutcomes)
    (po : PRFetchOutcomes) (config : JulesWorkflowConfig) (env : ProcessEnv)
    (input : String) (linearInfo : LinearIssueInfo) (prInfo : PRInfo) :
    (fetchLinearIssue issueId hasApiKey { o with attachmentsFetch := .error () } =
       fetchLinearIssue issueId hasApiKey { o with attachmentsFetch := .ok [] }) ∧
    ((po.reviewsFetch = .error () ∨ po.commentsFetch = .error () ∨
        po.issueCommentsFetch = .error () ∨ po.prDetailsFetch = .error ()) →
      fetchPRData po = none) ∧
    (input.data.any Char.isUpper = true →
      fetchLinearIssue input env.hasLinearApiKey (env.linearOutcomes input) =
        some linearInfo →
      findPRFromLinearAttachments linearInfo = some prInfo →
      fetchPRData (env.prFetchOutcomes prInfo) = none →
      processInput config env input =
        .ok { linearOnlyData linearInfo with prInfo := some prInfo }) := by
  refine ⟨?_, ?_, ?_⟩
  · rcases o with ⟨issueF, commentsF, stateF, assigneeF, teamF, labelsF, attF⟩
    cases hasApiKey
    · rfl
    · cases issueF with
      | error e => rfl
      | ok oc =>
        cases oc with
        | none => rfl
        | some core =>
          cases commentsF <;> cases stateF <;> cases assigneeF <;>
            cases teamF <;> cases labelsF <;> rfl
  · intro hfail
    rcases po with ⟨prCheck, rF, cF, iF, dF⟩
    cases prCheck with
    | error e => rfl
    | ok s =>
      by_cases hs : s = ""
      · simp [fetchPRData, hs]
      · simp only [fetchPRData, if_neg hs]
        rcases hfail with h | h | h | h
        · simp only at h; subst h
          cases cF <;> cases iF <;> cases dF <;> rfl
        · simp only at h; subst h
          cases rF <;> cases iF <;> cases dF <;> rfl
        · simp only at h; subst h
          cases rF <;> cases cF <;> cases dF <;> rfl
        · simp only at h; subst h
          cases rF <;> cases cF <;> cases iF <;> rfl
  · intro hup hlin hatt hpr
    simp only [processInput, hup, hlin, hatt, hpr, if_true]

/-- The Linear SDK outcomes for the C2 witness issue. -/
def c2LinearOutcomes : LinearFetchOutcomes :=
  { issueFetch := .ok (some
      { title := "T", description := none, branchName := none,
        url := "u", priority := none, priorityLabel := none })
    commentsFetch := .ok []
    stateFetch := .ok none
    assigneeFetch := .ok none
    teamFetch := .ok none
    labelsFetch := .ok []
    attachmentsFetch := .ok [{ url := "https://github.com/o/r/pull/7", title := none }] }

/-- The LinearIssueInfo produced from c2LinearOutcomes for issue AB-1. -/
def c2LinearInfo : LinearIssueInfo :=
  { id := "AB-1", title := "T", description := none, comments := [],
    attachments := [{ url := "https://github.com/o/r/pull/7", title := none }],
    branchName := none, url := "u", state := "Unknown", priority := 0,
    priorityLabel := "None", assignee := none, team := "Unknown", labels := [] }

/-- The PR reference found in the C2 witness attachment. -/
def c2PRInfo : PRInfo := { owner := "o", repo := "r", number := some 7 }

/-- The environment of the C2 witness run: the Linear issue resolves, its
attachment names PR 7, and the GitHub reviews sub-fetch for that PR fails. -/
def c2Env : ProcessEnv :=
  { hasLinearApiKey := true
    linearOutcomes := fun _ => c2LinearOutcomes
    repoInfo := none
    prFetchOutcomes := fun _ => c2Outcomes
    prListForBranch := fun _ => .ok []
    promptAnswer := fun _ => ""
    suppressLogs := true }

/-- C2 witness: in that environment the run still succeeds, keeping the
Linear data and the PR reference with empty comment lists. -/
theorem C2_witness :
    processInput DEFAULT_CONFIG c2Env "AB-1" =
      .ok { linearOnlyData c2LinearInfo with prInfo := some c2PRInfo } :=
  (C2_subfetch_recovery "AB-1" true c2LinearOutcomes c2Outcomes
      DEFAULT_CONFIG c2Env "AB-1" c2LinearInfo c2PRInfo).2.2
    (by decide) (by decide) (by decide) (by decide)

/- ### Helper lemmas about substring occurrence -/

theorem listStartsWith_self_append (n t : List Char) :
    listStartsWith n (n ++ t) = true := by
  induction n with
  | nil => rfl
  | cons c cs ih => simp [listStartsWith, ih]

theorem listOccurs_of_startsWith (n h : List Char)
    (hs : listStartsWith n h = true) : listOccurs n h = true := by
  cases h with
  | nil => simpa [listOccurs] using hs
  | cons c cs => simp [listOccurs, hs]

theorem listOccurs_append (pre n suf : List Char) :
    listOccurs n (pre ++ n ++ suf) = true := by
  induction pre with
  | nil => exact listOccurs_of_startsWith n (n ++ suf) (listStartsWith_self_append n suf)
  | cons p ps ih =>
    show listOccurs n (p :: (ps ++ n ++ suf)) = true
    simp only [listOccurs, ih, Bool.or_true]

theorem strIncludes_concat (a needle b : String) :
    strIncludes (a ++ needle ++ b) needle = true := by
  simp only [strIncludes, String.data_append]
  exact listOccurs_append a.data needle.data b.data

/- ### Claim C6 -/

/-- C6: when the Linear fetch for the token fails and the PR fetch for the
token fails (or the repository cannot even be determined), processInput
terminates with the no-data error, whose message contains the token
verbatim, and no extracted data is produced. -/
theorem C6_resolution_failure
    (config : JulesWorkflowConfig) (env : ProcessEnv) (input : String)
    (hlin : fetchLinearIssue input env.hasLinearApiKey (env.linearOutcomes input) = none)
    (hpr : ∀ repoInfo, env.repoInfo = some repoInfo →
      fetchPRData (env.prFetchOutcomes
        { owner := repoInfo.owner, repo := repoInfo.repo,
          number := parseIntJS input }) = none) :
    processInput config env input = .error (noDataMessage input) ∧
    strIncludes (noDataMessage input) input = true := by
  constructor
  · by_cases hup : input.data.any Char.isUpper = true
    · simp only [processInput, hup, hlin, if_true]
    · have hup' : input.data.any Char.isUpper = false := by
        cases h : input.data.any Char.isUpper
        · rfl
        · exact absurd h hup
      cases hrep : env.repoInfo with
      | none =>
        simp only [processInput, hup', Bool.false_eq_true, if_false, hrep]
      | some repoInfo =>
        have hnone := hpr repoInfo hrep
        simp only [processInput, hup', Bool.false_eq_true, if_false, hrep, hnone]
  · simpa only [noDataMessage] using
      strIncludes_concat "Could not find data for " input
        ". Make sure the ID/number is correct and you have access."

/-- Fully failing Linear outcomes for the C6 witness. -/
def c6Outcomes : LinearFetchOutcomes :=
  { issueFetch := .error (), commentsFetch := .error (), stateFetch := .error ()
    assigneeFetch := .error (), teamFetch := .error (), labelsFetch := .error ()
    attachmentsFetch := .error () }

/-- An environment where nothing resolves: no Linear API key and no git
remote information. -/
def c6Env : ProcessEnv :=
  { hasLinearApiKey := false
    linearOutcomes := fun _ => c6Outcomes
    repoInfo := none
    prFetchOutcomes := fun _ =>
      { prCheck := .error (), reviewsFetch := .error (), commentsFetch := .error ()
        issueCommentsFetch := .error (), prDetailsFetch := .error () }
    prListForBranch := fun _ => .error ()
    promptAnswer := fun _ => ""
    suppressLogs := false }

/-- C6 witness: the unresolvable token ZZ-9 yields the no-data error and the
message contains ZZ-9. -/
theorem C6_witness :
    processInput DEFAULT_CONFIG c6Env "ZZ-9" = .error (noDataMessage "ZZ-9") ∧
    strIncludes (noDataMessage "ZZ-9") "ZZ-9" = true :=
  C6_resolution_failure DEFAULT_CONFIG c6Env "ZZ-9" (by decide)
    (by intro repoInfo h; simp [c6Env] at h)

/- ### Helper lemmas about string concatenation -/

/-- Right-fold concatenation of a list of fragments. -/
def concatList (l : List String) : String := l.foldr (· ++ ·) ""

theorem strData_ext (a b : String) (h : a.data = b.data) : a = b := by
  cases a with
  | mk d1 =>
    cases b with
    | mk d2 => exact congrArg String.mk h

theorem strEmpty_append (s : String) : "" ++ s = s :=
  strData_ext _ _ (by simp [String.data_append])

theorem jsTrimTruthy_ne_empty (f : String) (h : jsTrimTruthy f = true) :
    (f != "") = true := by
  refine bne_iff_ne.mpr ?_
  intro heq
  subst heq
  simp [jsTrimTruthy] at h

theorem strAppend_empty (s : String) : s ++ "" = s :=
  strData_ext _ _ (by simp [String.data_append])

theorem strAppend_assoc (a b c : String) : a ++ b ++ c = a ++ (b ++ c) :=
  strData_ext _ _ (by simp [String.data_append])

theorem foldl_append_concatList (l : List String) :
    ∀ init : String, l.foldl (fun r s => r ++ s) init = init ++ concatList l := by
  induction l with
  | nil => intro init; simp [concatList, strAppend_empty]
  | cons a as ih =>
    intro init
    simp only [List.foldl_cons, ih (init ++ a), concatList, List.foldr_cons]
    exact strAppend_assoc init a (as.foldr (· ++ ·) "")

theorem join_eq_concatList (l : List String) : String.join l = concatList l :=
  calc String.join l = l.foldl (fun r s => r ++ s) "" := rfl
    _ = "" ++ concatList l := foldl_append_concatList l ""
    _ = concatList l := strEmpty_append _

/- ### Claim C3 -/

theorem assembleSections_eq_concat_aux (sections : List (String × String)) (ie : Bool) :
    ∀ (order : List String) (init : String),
      order.foldl (fun output sectionName =>
        match sections.lookup sectionName with
        | some frag =>
          if frag != "" && (ie || jsTrimTruthy frag) then output ++ frag else output
        | none => output) init =
      init ++ concatList (order.filterMap (fun name =>
        match sections.lookup name with
        | some frag =>
          if frag != "" && (ie || jsTrimTruthy frag) then some frag else none
        | none => none)) := by
  intro order
  induction order with
  | nil => intro init; simp [concatList, strAppend_empty]
  | cons name rest ih =>
    intro init
    simp only [List.foldl_cons, List.filterMap_cons]
    cases h : sections.lookup name with
    | none => simp only [h]; exact ih init
    | some frag =>
      by_cases hc : (frag != "" && (ie || jsTrimTruthy frag)) = true
      · simp only [h, hc, if_true, ih (init ++ frag), concatList, List.foldr_cons]
        exact strAppend_assoc init frag _
      · have hc' : (frag != "" && (ie || jsTrimTruthy frag)) = false := by
          cases hcc : (frag != "" && (ie || jsTrimTruthy frag))
          · rfl
          · exact absurd hcc hc
        simp only [h, hc', if_false]
        exact ih init

theorem assembleSections_eq_concat (sectionOrder : List String)
    (sections : List (String × String)) (includeEmptySections : Bool) :
    assembleSections sectionOrder sections includeEmptySections =
      concatList (sectionOrder.filterMap (fun name =>
        match sections.lookup name with
        | some frag =>
          if frag != "" && (includeEmptySections || jsTrimTruthy frag) then some frag
          else none
        | none => none)) := by
  have h := assembleSections_eq_concat_aux sections includeEmptySections sectionOrder ""
  exact h.trans (strEmpty_append _)

/-- A configuration asking only for the header section. -/
def c3Config : JulesWorkflowConfig :=
  { DEFAULT_CONFIG with
    output := { DEFAULT_CONFIG.output with sectionOrder := ["header"] } }

/-- Extracted data whose PR head branch is the one-space string, making the
rendered header fragment whitespace-only. -/
def c3Data : ExtractedData :=
  { prInfo := some { owner := "o", repo := "r", number := some 1 }
    linearInfo := none
    prDetails := some
      { title := "t", body := none, head_ref := " ", base_ref := "m",
        state := "open", draft := false }
    reviews := [], reviewComments := [], issueComments := [] }

/-- C3 counterexample: the header section is present in the rendered-section
mapping (bound to a whitespace-only fragment), yet with empty sections
disabled the assembled output drops it, so the output is not the
concatenation of the fragments of all sections present in the mapping. -/
theorem C3_counterexample :
    List.lookup "header" (buildPRSections c3Config c3Data) = some " \n\n" ∧
    formatOutput c3Config c3Data = "" ∧
    formatOutput c3Config c3Data ≠
      concatList (c3Config.output.sectionOrder.filterMap
        (fun name => (buildPRSections c3Config c3Data).lookup name)) := by
  refine ⟨by decide, by decide, by decide⟩

/-- C3 (amended): for combined-template extractions the final report is the
concatenation, in exactly the configured section-order sequence, of the
fragments of the sections present in the rendered-section mapping that are
non-empty and, when includeEmptySections is false, do not trim to
whitespace; names absent from the mapping and fragments failing that filter
are skipped silently.  In particular, with order actionItems then header and
both fragments non-whitespace, the actionItems text precedes the header
text. -/
theorem C3_assembly_order (config : JulesWorkflowConfig)
    (extractedData : ExtractedData) (pr : PRInfo)
    (hpr : extractedData.prInfo = some pr) :
    (formatOutput config extractedData =
      concatList (config.output.sectionOrder.filterMap (fun name =>
        match (buildPRSections config extractedData).lookup name with
        | some frag =>
          if frag != "" && (config.filtering.includeEmptySections || jsTrimTruthy frag)
          then some frag else none
        | none => none))) ∧
    (∀ (sections : List (String × String)) (fragA fragH : String) (ie : Bool),
      sections.lookup "actionItems" = some fragA →
      sections.lookup "header" = some fragH →
      jsTrimTruthy fragA = true → jsTrimTruthy fragH = true →
      assembleSections ["actionItems", "header"] sections ie = fragA ++ fragH) := by
  constructor
  · rcases extractedData with ⟨pi, li, pd, r, rc, ic⟩
    simp only at hpr
    subst hpr
    cases li with
    | none => exact assembleSections_eq_concat _ _ _
    | some l => exact assembleSections_eq_concat _ _ _
  · intro sections fragA fragH ie hA hH htA htB
    have hneA := jsTrimTruthy_ne_empty fragA htA
    have hneH := jsTrimTruthy_ne_empty fragH htB
    simp only [assembleSections, List.foldl_cons, List.foldl_nil, hA, hH,
      hneA, hneH, htA, htB, Bool.or_true, Bool.and_true, if_true]
    rw [strEmpty_append]

/-- C3 witness: with order actionItems then header and two non-whitespace
fragments, the assembled output is the actionItems text followed by the
header text. -/
theorem C3_witness :
    assembleSections ["actionItems", "header"]
      [("actionItems", "3 items\n"), ("header", "feat/x\n")] false =
      "3 items\n" ++ "feat/x\n" :=
  (C3_assembly_order c3Config c3Data
      { owner := "o", repo := "r", number := some 1 } (by decide)).2
    [("actionItems", "3 items\n"), ("header", "feat/x\n")] "3 items\n" "feat/x\n"
    false (by decide) (by decide) (by decide) (by decide)

/- ### Claim C5 -/

/-- C5: in the botFeedback section, a tier bucket with n summaries and cap c
shows exactly min n c bulleted one-line summaries; the bucket body is the
tier heading, those summaries, an overflow line present exactly when n
exceeds c and announcing n minus c more, and a blank separator; and every
summary entry is the one-line author-plus-first-100-characters digest of a
bot comment of that tier, never an individual full entry. -/
theorem C5_botFeedback_caps (config : JulesWorkflowConfig)
    (allBotComments : List Comment) (tier : Priority) :
    (((botSummaryFor tier allBotComments).take
        config.filtering.maxBotItemsPerPriority).length =
      min (botSummaryFor tier allBotComments).length
        config.filtering.maxBotItemsPerPriority) ∧
    ((botSummaryFor tier allBotComments).length > 0 →
      botBucketSec config tier (botSummaryFor tier allBotComments) =
        "**" ++ tier.label ++ " Priority " ++ config.priority.priorityEmojis.get tier
          ++ "** (" ++ toString (botSummaryFor tier allBotComments).length ++ " items)\n"
          ++ concatList (((botSummaryFor tier allBotComments).take
                config.filtering.maxBotItemsPerPriority).map
               (fun item => "• " ++ item ++ "\n"))
          ++ (if (botSummaryFor tier allBotComments).length >
                config.filtering.maxBotItemsPerPriority then
                "• ... and "
                  ++ toString ((botSummaryFor tier allBotComments).length -
                      config.filtering.maxBotItemsPerPriority) ++ " more\n"
              else "")
          ++ "\n") ∧
    (∀ item ∈ botSummaryFor tier allBotComments, ∃ c ∈ allBotComments,
      c.priorityBang = tier ∧
      item = c.author ++ ": " ++ substrTo c.body 100 ++ "...") := by
  refine ⟨?_, ?_, ?_⟩
  · simp [List.length_take, Nat.min_comm]
  · intro h
    simp only [botBucketSec, if_pos h, join_eq_concatList]
  · intro item hmem
    simp only [botSummaryFor, List.mem_map] at hmem
    obtain ⟨c, hc, rfl⟩ := hmem
    obtain ⟨hcl, hpred⟩ := List.mem_filter.1 hc
    exact ⟨c, hcl, eq_of_beq hpred, rfl⟩

/-- Five MEDIUM-priority bot comments for the C5 scenario. -/
def c5Bots : List Comment :=
  [{ author := "u1", body := "m1", isBot := some true, priority := some .MEDIUM },
   { author := "u2", body := "m2", isBot := some true, priority := some .MEDIUM },
   { author := "u3", body := "m3", isBot := some true, priority := some .MEDIUM },
   { author := "u4", body := "m4", isBot := some true, priority := some .MEDIUM },
   { author := "u5", body := "m5", isBot := some true, priority := some .MEDIUM }]

/-- C5 witness: five MEDIUM bot comments with the default cap of three per
tier yield exactly three summary lines plus a line announcing two more. -/
theorem C5_witness :
    botBucketSec DEFAULT_CONFIG Priority.MEDIUM (botSummaryFor Priority.MEDIUM c5Bots) =
      "**MEDIUM Priority ⚠️** (5 items)\n• u1: m1...\n• u2: m2...\n• u3: m3...\n• ... and 2 more\n\n" := by
  have h := (C5_botFeedback_caps DEFAULT_CONFIG c5Bots Priority.MEDIUM).2.1 (by decide)
  rw [h]
  decide

/- ### Claim C10 -/

/-- C10: a Linear-only extraction renders as the concatenation of at most
the six fragments header, title, description, metadata, comments and
julesRules in that fixed order, each governed by its own toggle and content,
and the configured section-order list has no effect on this output. -/
theorem C10_linear_only_fixed_order (config : JulesWorkflowConfig)
    (extractedData : ExtractedData) (linearInfo : LinearIssueInfo)
    (newOrder : List String)
    (hli : extractedData.linearInfo = some linearInfo)
    (hpr : extractedData.prInfo = none) :
    (formatOutput config extractedData =
      linearOnlyHeaderSec config linearInfo
        ++ linearOnlyTitleSec linearInfo
        ++ linearOnlyDescriptionSec config linearInfo
        ++ linearOnlyMetadataSec config linearInfo
        ++ linearOnlyCommentsSec config linearInfo
        ++ linearOnlyJulesRulesSec config) ∧
    (formatOutput
        { config with output := { config.output with sectionOrder := newOrder } }
        extractedData =
      formatOutput config extractedData) := by
  rcases extractedData with ⟨pi, li, pd, r, rc, ic⟩
  simp only at hli hpr
  subst hli
  subst hpr
  exact ⟨rfl, rfl⟩

/-- A sample Linear issue for the C10 scenario. -/
def c10LinearInfo : LinearIssueInfo :=
  { id := "AB-7", title := "Title", description := some "desc",
    comments := [{ body := "hello", userName := "bob", createdAt := "2024" }],
    attachments := [], branchName := none, url := "https://linear.app/x",
    state := "Todo", priority := 2, priorityLabel := "High", assignee := none,
    team := "Core", labels := ["bug"] }

/-- C10 witness: replacing the configured section order changes nothing on a
Linear-only extraction. -/
theorem C10_witness :
    formatOutput
      { DEFAULT_CONFIG with
        output := { DEFAULT_CONFIG.output with sectionOrder := ["julesRules"] } }
      (linearOnlyData c10LinearInfo) =
      formatOutput DEFAULT_CONFIG (linearOnlyData c10LinearInfo) :=
  (C10_linear_only_fixed_order DEFAULT_CONFIG (linearOnlyData c10LinearInfo)
    c10LinearInfo ["julesRules"] rfl rfl).2
